import Mathlib

/-!
Shallow embedding of the droplet-planning route-execution engine
(`droplet_planning_plugin/__init__.py`).

The engine executes a table of droplet routes in lock-step, one transition
per timer tick.  The embedding models:

* the route table (`RouteRow`, one row per transition, mirroring the pandas
  frame with columns `route_i`, `electrode_i`, `transition_i`);
* cycle classification and the cyclic/acyclic inclusion filter of
  `RouteController.execute_routes`;
* the per-tick activation masks of `RouteController.execute_transition`
  (`single_pass_mask`, `second_pass_mask`, `wrap_around_mask`) and the
  per-electrode aggregation emitted to the electrode-controller plugin;
* the scheduler loop `RouteController.check_routes_progress` and
  `RouteController.reset`, with the `route_info` dict modelled as an
  optional `RunData` record (the reset state `{'transition_counter': 0}`
  carries no run data);
* the repeat policy of `DropletPlanningPlugin.on_step_routes_complete`.

Electrode identifiers are strings in the source; they are modelled as `Nat`
(only equality of identifiers is ever used).  Window arithmetic is done in
`Int` because Python computes `end_i = counter + trail_length - 1`, which is
negative when `trail_length <= 0` at tick 0; Python's `%` agrees with
`Int.emod` for the positive moduli used here.
-/

/-- One row of the route table: columns `route_i`, `electrode_i`,
`transition_i` of the pandas frame. -/
structure RouteRow where
  route_i : Nat
  electrode_i : Nat
  transition_i : Nat
deriving DecidableEq, Repr

/-- The rows belonging to one route, in table order
(`df_routes.groupby('route_i')` preserves row order within a group). -/
def routeRows (df : List RouteRow) (r : Nat) : List RouteRow :=
  df.filter (fun row => row.route_i == r)

/-- Cycle classification of `execute_routes`: a route is cyclic when the
electrode of its first row equals the electrode of its last row
(`groupby('route_i').nth(0)` vs `nth(-1)` on `electrode_i`). -/
def isCyclicRoute (df : List RouteRow) (r : Nat) : Bool :=
  match (routeRows df r).head?, (routeRows df r).getLast? with
  | some a, some b => a.electrode_i == b.electrode_i
  | _, _ => false

/-- The cyclic/acyclic inclusion filter of `execute_routes`.  The branch
structure mirrors the Python `if not cyclic / elif not acyclic /
elif not cyclic and not acyclic` chain; the third branch (empty table) is
unreachable because the first branch already fires whenever `cyclic` is
false. -/
def filterRoutes (df : List RouteRow) (cyclic acyclic : Bool) : List RouteRow :=
  if !cyclic then df.filter (fun row => !(isCyclicRoute df row.route_i))
  else if !acyclic then df.filter (fun row => isCyclicRoute df row.route_i)
  else if !cyclic && !acyclic then []
  else df

/-- A row of the filtered table after `execute_routes` has added the
`route_length` and `cyclic` columns. -/
structure AnnRow where
  route_i : Nat
  electrode_i : Nat
  transition_i : Nat
  route_length : Nat
  cyclic : Bool
deriving DecidableEq, Repr

/-- Column construction of `execute_routes`: `route_length` is the row count
of the row's route in the filtered table (`route_groups['route_i'].count()`),
and `cyclic` is membership of the route in the cycle set computed from the
original, unfiltered table (`route_info['cycles']`). -/
def annotate (df_orig df : List RouteRow) : List AnnRow :=
  df.map (fun row =>
    { route_i := row.route_i,
      electrode_i := row.electrode_i,
      transition_i := row.transition_i,
      route_length := (routeRows df row.route_i).length,
      cyclic := isCyclicRoute df_orig row.route_i })

/-- The distinct route identifiers of a table, in order of first
appearance. -/
def routeIds (df : List RouteRow) : List Nat :=
  (df.map (fun row => row.route_i)).dedup

/-- The `route_lengths` series of `execute_routes`: the row count of each
route in the (filtered) table. -/
def routeLengthsOf (df : List RouteRow) : List Nat :=
  (routeIds df).map (fun r => (routeRows df r).length)

/-- `route_lengths.max()`, the tick bound `stop_i` of
`check_routes_progress`.  On an empty series pandas yields `NaN` and the
comparison `transition_counter < NaN` is false, which coincides with the
behaviour of taking the maximum to be `0` (the counter, a natural number,
is never below `0`). -/
def routeLengthsMax (df : List RouteRow) : Nat :=
  (routeLengthsOf df).foldr max 0

/-- `single_pass_mask` of `execute_transition`:
`(transition_i >= start_i) & (transition_i <= end_i)` with
`start_i = transition_counter` and `end_i = start_i + trail_length - 1`. -/
def singlePassMask (t : Nat) (L : Int) (i : Nat) : Bool :=
  ((t : Int) ≤ (i : Int)) && ((i : Int) ≤ (t : Int) + L - 1)

/-- `second_pass_mask` of `execute_transition`:
`max(end_i, start_i) < 2 * route_length`. -/
def secondPassMask (t : Nat) (L : Int) (n : Nat) : Bool :=
  max ((t : Int) + L - 1) (t : Int) < 2 * (n : Int)

/-- `wrap_around_mask` of `execute_transition`:
`(end_i_mod < start_i_mod) & ((transition_i >= start_i_mod) |
(transition_i <= end_i_mod + 1))`, where `start_i_mod` and `end_i_mod`
reduce the window edges modulo the row's `route_length`. -/
def wrapAroundMask (t : Nat) (L : Int) (n : Nat) (i : Nat) : Bool :=
  ((((t : Int) + L - 1) % (n : Int)) < ((t : Int) % (n : Int))) &&
    ((((t : Int) % (n : Int)) ≤ (i : Int)) ||
     ((i : Int) ≤ (((t : Int) + L - 1) % (n : Int)) + 1))

/-- `active_transition_mask` of `execute_transition`: a row is active when it
lies in the single-pass window, or — for cyclic routes only, and only while
the window still lies within the second pass — in the wrap-around window. -/
def activeTransition (t : Nat) (L : Int) (row : AnnRow) : Bool :=
  singlePassMask t L row.transition_i ||
    (row.cyclic && secondPassMask t L row.route_length &&
      wrapAroundMask t L row.route_length row.transition_i)

/-- `df_routes.groupby('electrode_i')['active'].sum()` at one electrode: the
number of rows of that electrode whose transition is active this tick. -/
def activeElectrodeSum (df : List AnnRow) (t : Nat) (L : Int) (e : Nat) : Nat :=
  (df.filter (fun row => row.electrode_i == e)).countP
    (fun row => activeTransition t L row)

/-- The site-state map emitted by `execute_transition`: one entry per
distinct electrode of the table, true when the electrode has at least one
active row (`active_electrode_mask.astype(bool)`).  The source additionally
sorts the entries (grouping sorts keys; `sort_values(ascending=False)` puts
the on-states first for downstream duplicate-channel handling); ordering
carries no information here, so entries are kept in first-appearance
order. -/
def electrodeStates (df : List AnnRow) (t : Nat) (L : Int) : List (Nat × Bool) :=
  ((df.map (fun row => row.electrode_i)).dedup).map
    (fun e => (e, decide (0 < activeElectrodeSum df t L e)))

/-- The run-scoped keys of the `route_info` dict, present exactly while a
run exists.  Timer handles are opaque; only presence matters, so
`timeout_id` is an `Option Unit`. -/
structure RunData where
  df_routes : List AnnRow
  transition_duration_ms : Int
  trail_length : Int
  electrode_ids : List Nat
  route_lengths : List Nat
  timeout_id : Option Unit
deriving DecidableEq, Repr

/-- The `route_info` dict of `RouteController`.  After `reset` the dict is
`{'transition_counter': 0}`, i.e. `run = none`. -/
structure RouteInfo where
  transition_counter : Nat
  run : Option RunData
deriving DecidableEq, Repr

/-- The reset state `{'transition_counter': 0}`. -/
def RouteInfo.idle : RouteInfo :=
  { transition_counter := 0, run := none }

/-- The effects of `RouteController.reset`: the state afterwards, whether a
pending timer was cancelled (`gobject.source_remove`), and the off-states
emitted for the run's electrodes. -/
structure ResetOutcome where
  state : RouteInfo
  cancelledTimer : Bool
  emission : Option (List (Nat × Bool))
deriving DecidableEq, Repr

/-- `RouteController.reset`: cancel a pending timer if one exists, emit an
all-off state map over `electrode_ids` when at least one route exists, and
replace `route_info` by `{'transition_counter': 0}`. -/
def reset (s : RouteInfo) : ResetOutcome :=
  match s.run with
  | none =>
    { state := RouteInfo.idle, cancelledTimer := false, emission := none }
  | some rd =>
    { state := RouteInfo.idle,
      cancelledTimer := rd.timeout_id.isSome,
      emission :=
        if 0 < rd.electrode_ids.length then
          some (rd.electrode_ids.map (fun e => (e, false)))
        else none }

/-- The effects of `RouteController.execute_routes`: the fresh run state and
the effects of the initial `reset` of any previous run.  The source then
schedules the first tick immediately (`gobject.idle_add`), i.e. the first
call of `check_routes_progress` happens at `transition_counter = 0`. -/
structure StartOutcome where
  state : RouteInfo
  cancelledTimer : Bool
  resetEmission : Option (List (Nat × Bool))
deriving DecidableEq, Repr

/-- `RouteController.execute_routes`: reset any running execution, filter
the table by the cyclic/acyclic inclusion flags, record the `route_length`
and `cyclic` columns, the distinct electrodes and the per-route lengths,
and start with the transition counter at 0.  No validation of
`trail_length` (or of anything else) is performed. -/
def execute_routes (prev : RouteInfo) (df : List RouteRow)
    (transition_duration_ms trail_length : Int)
    (cyclic acyclic : Bool) : StartOutcome :=
  let r := reset prev
  let df2 := filterRoutes df cyclic acyclic
  { state :=
      { transition_counter := 0,
        run := some
          { df_routes := annotate df df2,
            transition_duration_ms := transition_duration_ms,
            trail_length := trail_length,
            electrode_ids := (df2.map (fun row => row.electrode_i)).dedup,
            route_lengths := routeLengthsOf df2,
            timeout_id := none } },
    cancelledTimer := r.cancelledTimer,
    resetEmission := r.emission }

/-- The effects of one call of `check_routes_progress`: the state
afterwards, the site-state map emitted by `execute_transition` (if one
was executed), whether a follow-up timer was scheduled
(`gobject.timeout_add`), whether the `on_complete` callback was invoked,
and the off-states emitted by the completion-path `reset`. -/
structure TickOutcome where
  state : RouteInfo
  emission : Option (List (Nat × Bool))
  timerScheduled : Bool
  onCompleteCalled : Bool
  resetEmission : Option (List (Nat × Bool))
deriving DecidableEq, Repr

/-- `RouteController.check_routes_progress`: return immediately when the
run keys are absent (`'route_lengths' not in self.route_info`); otherwise
execute a transition and schedule the next tick while the counter is below
`route_lengths.max()`, and reset and invoke `on_complete` once it is not. -/
def check_routes_progress (s : RouteInfo) : TickOutcome :=
  match s.run with
  | none =>
    { state := s, emission := none, timerScheduled := false,
      onCompleteCalled := false, resetEmission := none }
  | some rd =>
    if s.transition_counter < rd.route_lengths.foldr max 0 then
      { state :=
          { transition_counter := s.transition_counter + 1,
            run := some { rd with timeout_id := some () } },
        emission :=
          some (electrodeStates rd.df_routes s.transition_counter
                  rd.trail_length),
        timerScheduled := true, onCompleteCalled := false,
        resetEmission := none }
    else
      { state := (reset s).state, emission := none, timerScheduled := false,
        onCompleteCalled := true, resetEmission := (reset s).emission }

/-- The scheduler state after `k` ticks of `check_routes_progress`. -/
def runTicks (s : RouteInfo) : Nat → RouteInfo
  | 0 => s
  | k + 1 => (check_routes_progress (runTicks s k)).state

/-- The repeat test of `on_step_routes_complete`:
`(repeat_duration_s > 0 and step_duration_s < repeat_duration_s) or
(repeat_i + 1 < route_repeats)`. -/
def repeatDecision (repeat_duration_s step_duration_s : Int)
    (repeat_i route_repeats : Nat) : Bool :=
  (0 < repeat_duration_s && step_duration_s < repeat_duration_s) ||
    (repeat_i + 1 < route_repeats)

/-- Outcome of `on_step_routes_complete`: either another pass is started
(with the incremented repeat counter), or `on_step_complete` is signalled. -/
inductive StepOutcome where
  | restart (s : StartOutcome) (repeat_i : Nat)
  | complete
deriving DecidableEq, Repr

/-- `DropletPlanningPlugin.on_step_routes_complete`: when the repeat test
passes, call `execute_routes` again with `cyclic=True, acyclic=False`;
otherwise signal step completion. -/
def on_step_routes_complete (df : List RouteRow)
    (transition_duration_ms trail_length : Int)
    (repeat_duration_s step_duration_s : Int)
    (repeat_i route_repeats : Nat) (s : RouteInfo) : StepOutcome :=
  if repeatDecision repeat_duration_s step_duration_s repeat_i route_repeats then
    StepOutcome.restart
      (execute_routes s df transition_duration_ms trail_length true false)
      (repeat_i + 1)
  else
    StepOutcome.complete

/-- The route set held by a scheduler state (empty when idle). -/
def runRouteSet (s : RouteInfo) : List AnnRow :=
  match s.run with
  | some rd => rd.df_routes
  | none => []

/-- Modelled from the spec (claim C3 wording, for comparison with the
source's `wrapAroundMask`): a position `p` is part of the wrapped window
when the window's start index mod `N` is greater than its end index mod
`N` and `p mod N >= t mod N` or `p mod N <= (t + L - 1) mod N`. -/
def wrappedWindowSpec (n : Nat) (t : Nat) (L : Int) (p : Nat) : Bool :=
  ((((t : Int) + L - 1) % (n : Int)) < ((t : Int) % (n : Int))) &&
    ((((t : Int) % (n : Int)) ≤ ((p : Int) % (n : Int))) ||
     (((p : Int) % (n : Int)) ≤ (((t : Int) + L - 1) % (n : Int))))

/-- The spec's wrapped-window predicate amended to match the source: the
upper edge of the straddled range is `(t + L - 1) mod N` plus one (the
source compares `transition_i <= end_i_mod + 1`). -/
def wrappedWindowAmended (n : Nat) (t : Nat) (L : Int) (p : Nat) : Bool :=
  ((((t : Int) + L - 1) % (n : Int)) < ((t : Int) % (n : Int))) &&
    ((((t : Int) % (n : Int)) ≤ ((p : Int) % (n : Int))) ||
     (((p : Int) % (n : Int)) ≤ (((t : Int) + L - 1) % (n : Int)) + 1))

/-- A concrete acyclic route of length 3 (electrodes 10, 11, 12). -/
def df3 : List RouteRow :=
  [⟨0, 10, 0⟩, ⟨0, 11, 1⟩, ⟨0, 12, 2⟩]

/-- The annotated form of `df3` (no filtering: both inclusion flags on). -/
def dfA3 : List AnnRow :=
  annotate df3 df3

/-- A concrete acyclic route of length 2 (electrodes 10, 11). -/
def dfAcy : List RouteRow :=
  [⟨0, 10, 0⟩, ⟨0, 11, 1⟩]

/-- A concrete table holding one cyclic route (route 0: electrodes
20, 21, 20) and one acyclic route (route 1: electrodes 30, 31). -/
def dfRep : List RouteRow :=
  [⟨0, 20, 0⟩, ⟨0, 21, 1⟩, ⟨0, 20, 2⟩, ⟨1, 30, 0⟩, ⟨1, 31, 1⟩]

/-- A concrete table of two acyclic routes sharing electrode 41
(route 0: electrodes 40, 41; route 1: electrodes 41, 42). -/
def dfShare : List RouteRow :=
  [⟨0, 40, 0⟩, ⟨0, 41, 1⟩, ⟨1, 41, 0⟩, ⟨1, 42, 1⟩]

/-- A concrete mid-run scheduler state over `dfA3` with a pending timer. -/
def sRun : RouteInfo :=
  { transition_counter := 2,
    run := some
      { df_routes := dfA3, transition_duration_ms := 750, trail_length := 1,
        electrode_ids := [10, 11, 12], route_lengths := [3],
        timeout_id := some () } }

/-!  Helper lemmas about the scheduler step. -/

/-- One tick below the stop bound executes a transition, emits the current
site states, advances the counter and schedules the next tick. -/
lemma check_run_below (c : Nat) (rd : RunData)
    (hlt : c < rd.route_lengths.foldr max 0) :
    check_routes_progress ⟨c, some rd⟩ =
      { state :=
          { transition_counter := c + 1,
            run := some { rd with timeout_id := some () } },
        emission := some (electrodeStates rd.df_routes c rd.trail_length),
        timerScheduled := true, onCompleteCalled := false,
        resetEmission := none } := by
  simp [check_routes_progress, hlt]

/-- One tick at or past the stop bound executes nothing: it resets the run
state and invokes `on_complete`. -/
lemma check_run_done (c : Nat) (rd : RunData)
    (hge : ¬ c < rd.route_lengths.foldr max 0) :
    check_routes_progress ⟨c, some rd⟩ =
      { state := RouteInfo.idle, emission := none, timerScheduled := false,
        onCompleteCalled := true,
        resetEmission := (reset ⟨c, some rd⟩).emission } := by
  simp [check_routes_progress, hge, reset]

/-- Shape of the scheduler state after `k` ticks from a fresh run: while
`k` is at most the stop bound the counter equals `k` and the run data is
unchanged except for the pending-timer handle; past the bound the state is
idle. -/
lemma runTicks_trace (rd : RunData) (k : Nat) :
    (k ≤ rd.route_lengths.foldr max 0 →
      runTicks ⟨0, some rd⟩ k =
        ⟨k, some (if k = 0 then rd else { rd with timeout_id := some () })⟩) ∧
    (rd.route_lengths.foldr max 0 < k →
      runTicks ⟨0, some rd⟩ k = RouteInfo.idle) := by
  induction k with
  | zero =>
    refine ⟨fun _ => by simp [runTicks], fun h => absurd h (Nat.not_lt_zero _)⟩
  | succ k ih =>
    constructor
    · intro hk1
      have hlt : k < rd.route_lengths.foldr max 0 := Nat.lt_of_succ_le hk1
      have hlen :
          RunData.route_lengths
              (if k = 0 then rd else { rd with timeout_id := some () }) =
            rd.route_lengths := by
        split <;> rfl
      rw [runTicks, ih.1 (Nat.le_of_lt hlt),
        check_run_below k _ (by rw [hlen]; exact hlt)]
      by_cases hk0 : k = 0
      · subst hk0
        rfl
      · simp [hk0]
    · intro hk1
      by_cases hMk : rd.route_lengths.foldr max 0 < k
      · rw [runTicks, ih.2 hMk]
        rfl
      · have hMe : rd.route_lengths.foldr max 0 = k := by omega
        have hlen :
            RunData.route_lengths
                (if k = 0 then rd else { rd with timeout_id := some () }) =
              rd.route_lengths := by
          split <;> rfl
        rw [runTicks, ih.1 (Nat.le_of_eq hMe.symm),
          check_run_done k _ (by rw [hlen]; omega)]

/-- Behaviour of the tick following the first `k` ticks of a fresh run:
a transition is executed exactly while `k` is below the stop bound
`route_lengths.max()`, and `on_complete` fires exactly when `k` reaches
it. -/
lemma check_after_ticks (rd : RunData) (k : Nat) :
    ((check_routes_progress (runTicks ⟨0, some rd⟩ k)).emission.isSome = true ↔
      k < rd.route_lengths.foldr max 0) ∧
    ((check_routes_progress (runTicks ⟨0, some rd⟩ k)).onCompleteCalled = true ↔
      k = rd.route_lengths.foldr max 0) := by
  have hlen :
      RunData.route_lengths
          (if k = 0 then rd else { rd with timeout_id := some () }) =
        rd.route_lengths := by
    split <;> rfl
  rcases Nat.lt_trichotomy k (rd.route_lengths.foldr max 0) with hlt | heq | hgt
  · rw [(runTicks_trace rd k).1 (Nat.le_of_lt hlt),
      check_run_below k _ (by rw [hlen]; exact hlt)]
    simp [hlt, Nat.ne_of_lt hlt]
  · rw [(runTicks_trace rd k).1 (Nat.le_of_eq heq),
      check_run_done k _ (by rw [hlen]; omega)]
    simp [heq]
  · rw [(runTicks_trace rd k).2 hgt]
    have h1 : ¬ k < rd.route_lengths.foldr max 0 := by omega
    have h2 : ¬ k = rd.route_lengths.foldr max 0 := by omega
    simp [check_routes_progress, RouteInfo.idle, h1, h2]

/-!  Claim theorems. -/

/-- Claim C1 (corrected).  The claim states that a pass ends when the tick
counter reaches `max(route length + trail_length - 1)` over the included
routes.  In the source the stop bound of `check_routes_progress` is
`route_lengths.max()` with no trail-length term: the pass over `df3`
(single route of length 3) started with trail length 2 executes no
transition at tick 3 and instead consults the repeat policy, although
`3 < 3 + 2 - 1`. -/
theorem C1_pass_end_counterexample :
    (3 : Nat) < 3 + 2 - 1 ∧
    routeLengthsMax (filterRoutes df3 true true) = 3 ∧
    TickOutcome.emission
      (check_routes_progress
        (runTicks (execute_routes RouteInfo.idle df3 750 2 true true).state 3)) =
      none ∧
    TickOutcome.onCompleteCalled
      (check_routes_progress
        (runTicks (execute_routes RouteInfo.idle df3 750 2 true true).state 3)) =
      true := by
  decide

/-- Claim C1 (amended).  For every route set started with any trail length,
the tick following the first `k` ticks executes a transition exactly when
`k` is below `max(route length over included routes)` — the bound carries
no `+ trail_length - 1` term — and invokes the completion callback (which
consults the repeat policy) exactly when `k` reaches that bound.  The
claimed bound agrees with the source only when the trail length is 1. -/
theorem C1_pass_end (prev : RouteInfo) (df : List RouteRow) (tdm L : Int)
    (k : Nat) :
    (Option.isSome
        (TickOutcome.emission
          (check_routes_progress
            (runTicks (execute_routes prev df tdm L true true).state k))) =
        true ↔
      k < routeLengthsMax (filterRoutes df true true)) ∧
    (TickOutcome.onCompleteCalled
        (check_routes_progress
          (runTicks (execute_routes prev df tdm L true true).state k)) =
        true ↔
      k = routeLengthsMax (filterRoutes df true true)) :=
  check_after_ticks
    { df_routes := annotate df (filterRoutes df true true),
      transition_duration_ms := tdm, trail_length := L,
      electrode_ids :=
        ((filterRoutes df true true).map (fun row => row.electrode_i)).dedup,
      route_lengths := routeLengthsOf (filterRoutes df true true),
      timeout_id := none } k

/-- Claim C2 (confirmed).  For an acyclic route the active positions at
tick `t` with trail length `L ≥ 1` are exactly those `i` with
`t ≤ i ≤ t + L - 1`, clipped to `[0, N - 1]`; no wrapped (mod-`N`)
activation ever applies (the wrap-around term of the active mask is gated
on the `cyclic` column). -/
theorem C2_acyclic_window (row : AnnRow) (t : Nat) (L : Int)
    (hcy : row.cyclic = false) (_hL : 1 ≤ L)
    (hp : row.transition_i < row.route_length) :
    activeTransition t L row = true ↔
      ((t : Int) ≤ (row.transition_i : Int) ∧
       (row.transition_i : Int) ≤
         min ((t : Int) + L - 1) ((row.route_length : Int) - 1)) := by
  have hpi : (row.transition_i : Int) ≤ (row.route_length : Int) - 1 := by
    have := hp
    omega
  simp only [activeTransition, hcy, Bool.false_and, Bool.and_false,
    Bool.false_and, Bool.or_false, singlePassMask, Bool.and_eq_true,
    decide_eq_true_eq, le_min_iff]
  constructor
  · intro h
    exact ⟨h.1, h.2, hpi⟩
  · intro h
    exact ⟨h.1, h.2.1⟩

/-- Witness for C2 at a concrete input: the middle position of an acyclic
route of length 3 is active at tick 1 with trail length 1. -/
theorem C2_acyclic_window_witness :
    activeTransition 1 1 ⟨0, 10, 1, 3, false⟩ = true ↔
      (((1 : Nat) : Int) ≤ ((1 : Nat) : Int) ∧
       ((1 : Nat) : Int) ≤
         min (((1 : Nat) : Int) + 1 - 1) (((3 : Nat) : Int) - 1)) :=
  C2_acyclic_window ⟨0, 10, 1, 3, false⟩ 1 1 rfl (by decide) (by decide)

/-- Claim C3 (corrected).  The claim's wrapped-window membership test
(`p mod N ≥ t mod N` or `p mod N ≤ (t + L - 1) mod N`) disagrees with the
source: for the cyclic route of length 4 at tick 3 with trail length 2,
position 1 is activated by the wrap-around mask (the source compares
against `end_i_mod + 1`) although it lies in neither the single-pass
window nor the claim's wrapped range. -/
theorem C3_wrapped_window_counterexample :
    activeTransition 3 2 ⟨0, 11, 1, 4, true⟩ = true ∧
    singlePassMask 3 2 1 = false ∧
    wrapAroundMask 3 2 4 1 = true ∧
    wrappedWindowSpec 4 3 2 1 = false := by
  decide

/-- Claim C3 (amended).  For a cyclic route, a position within the route is
active exactly when it lies in the single-pass window, or the window end
still lies within the second pass and the position satisfies the wrapped
test with upper edge `(t + L - 1) mod N` **plus one**:
`p mod N ≥ t mod N` or `p mod N ≤ ((t + L - 1) mod N) + 1`. -/
theorem C3_wrapped_window_amended (row : AnnRow) (t : Nat) (L : Int)
    (hcy : row.cyclic = true) (hp : row.transition_i < row.route_length) :
    activeTransition t L row =
      (singlePassMask t L row.transition_i ||
       (secondPassMask t L row.route_length &&
        wrappedWindowAmended row.route_length t L row.transition_i)) := by
  have hmod :
      (row.transition_i : Int) % (row.route_length : Int) =
        (row.transition_i : Int) :=
    Int.emod_eq_of_lt (by positivity) (by exact_mod_cast hp)
  simp only [activeTransition, hcy, Bool.true_and, wrapAroundMask,
    wrappedWindowAmended, hmod]

/-- Witness for the amended C3 at a concrete input: the activation of the
cyclic route of length 4 at tick 3 with trail length 2 matches the amended
wrapped-window predicate at position 1. -/
theorem C3_wrapped_window_amended_witness :
    activeTransition 3 2 ⟨0, 11, 1, 4, true⟩ =
      (singlePassMask 3 2 1 ||
       (secondPassMask 3 2 4 && wrappedWindowAmended 4 3 2 1)) :=
  C3_wrapped_window_amended ⟨0, 11, 1, 4, true⟩ 3 2 rfl (by decide)

/-- Claim C4 (corrected).  The claim states that the emitted site-state map
contains only sites whose state changed since the previous tick.  The
source performs no diff against the previous tick: over the acyclic route
`df3` with trail length 1, electrode 12 is off at tick 0 and still off at
tick 1, yet the tick-1 emission contains it. -/
theorem C4_emission_counterexample :
    electrodeStates dfA3 0 1 = [(10, true), (11, false), (12, false)] ∧
    electrodeStates dfA3 1 1 = [(10, false), (11, true), (12, false)] := by
  decide

/-- Claim C4 (amended).  On every tick the emitted site-state map contains
an entry for every site appearing in the filtered route table — whether or
not its state changed — and that entry carries the site's current
aggregated state (on when at least one route row of the site is active). -/
theorem C4_emission_amended (df : List AnnRow) (t : Nat) (L : Int)
    (e : Nat) (b : Bool) :
    (e, b) ∈ electrodeStates df t L ↔
      (e ∈ df.map (fun row => row.electrode_i) ∧
       b = decide (0 < activeElectrodeSum df t L e)) := by
  simp only [electrodeStates, List.mem_map, List.mem_dedup, Prod.mk.injEq]
  constructor
  · rintro ⟨a, ha, rfl, rfl⟩
    exact ⟨ha, rfl⟩
  · rintro ⟨he, rfl⟩
    exact ⟨e, he, rfl, rfl⟩

/-- Claim C5 (corrected).  The claim states that starting with
`trail_length < 1` fails synchronously with a configuration error and that
no run begins.  `execute_routes` performs no validation: started on `df3`
with trail length 0 the run begins — run state exists, the first tick
executes a transition, emits a site-state map and schedules a timer. -/
theorem C5_no_validation_counterexample :
    (execute_routes RouteInfo.idle df3 750 0 true true).state.run.isSome =
      true ∧
    Option.isSome
      (TickOutcome.emission
        (check_routes_progress
          (execute_routes RouteInfo.idle df3 750 0 true true).state)) =
      true ∧
    TickOutcome.timerScheduled
      (check_routes_progress
        (execute_routes RouteInfo.idle df3 750 0 true true).state) =
      true := by
  decide

/-- Claim C5 (amended).  `execute_routes` never rejects its configuration:
for every previous state, route table and trail length (including values
below 1) the started state holds run data, and the immediately scheduled
first tick executes a transition exactly when the filtered route set is
nonempty (its maximal route length is positive). -/
theorem C5_start_always_begins (prev : RouteInfo) (df : List RouteRow)
    (tdm L : Int) (cyclic acyclic : Bool) :
    (execute_routes prev df tdm L cyclic acyclic).state.run.isSome = true ∧
    (Option.isSome
        (TickOutcome.emission
          (check_routes_progress
            (execute_routes prev df tdm L cyclic acyclic).state)) =
        true ↔
      0 < routeLengthsMax (filterRoutes df cyclic acyclic)) := by
  refine ⟨rfl, ?_⟩
  have hstate : (execute_routes prev df tdm L cyclic acyclic).state =
      ⟨0, some
        { df_routes := annotate df (filterRoutes df cyclic acyclic),
          transition_duration_ms := tdm, trail_length := L,
          electrode_ids :=
            ((filterRoutes df cyclic acyclic).map
              (fun row => row.electrode_i)).dedup,
          route_lengths := routeLengthsOf (filterRoutes df cyclic acyclic),
          timeout_id := none }⟩ := rfl
  rw [hstate]
  by_cases h : 0 < routeLengthsMax (filterRoutes df cyclic acyclic)
  · rw [check_run_below 0 _ (by simpa [routeLengthsMax] using h)]
    simp [h]
  · rw [check_run_done 0 _ (by simpa [routeLengthsMax] using h)]
    simp [h]

/-- Claim C6 (code bug).  Both the spec and the source's own
`df_routes.iloc[0:0]` branch intend the filtered route set to be empty when
both inclusion flags are false, but that branch is unreachable: the
`if not cyclic` branch fires first and keeps every acyclic route.  On the
acyclic table `dfAcy` with both flags false the filter keeps the whole
table and the run executes a transition on its first tick instead of
completing immediately with zero ticks. -/
theorem C6_both_flags_false_bug :
    filterRoutes dfAcy false false = dfAcy ∧
    dfAcy ≠ [] ∧
    Option.isSome
      (TickOutcome.emission
        (check_routes_progress
          (execute_routes RouteInfo.idle dfAcy 750 1 false false).state)) =
      true := by
  decide

/-- Claim C7 (confirmed).  When the repeat test of
`on_step_routes_complete` passes, the restarted pass calls
`execute_routes` with `cyclic=True, acyclic=False`, whose filtered route
set is exactly the rows of routes classified cyclic; every row of the
restarted set carries a true `cyclic` flag, so acyclic routes are excluded
from every repeat pass. -/
theorem C7_repeat_cyclic_only (df : List RouteRow) (tdm L rds sds : Int)
    (ri rr : Nat) (s : RouteInfo)
    (h : repeatDecision rds sds ri rr = true) :
    on_step_routes_complete df tdm L rds sds ri rr s =
      StepOutcome.restart (execute_routes s df tdm L true false) (ri + 1) ∧
    runRouteSet (execute_routes s df tdm L true false).state =
      annotate df (df.filter (fun row => isCyclicRoute df row.route_i)) ∧
    ∀ row ∈ runRouteSet (execute_routes s df tdm L true false).state,
      row.cyclic = true := by
  refine ⟨?_, ?_, ?_⟩
  · simp [on_step_routes_complete, h]
  · simp [runRouteSet, execute_routes, filterRoutes]
  · intro row hrow
    simp only [runRouteSet, execute_routes, filterRoutes, Bool.not_true,
      Bool.not_false, if_neg, ite_true, ite_false, Bool.false_and,
      annotate, List.mem_map] at hrow
    obtain ⟨r, hr, rfl⟩ := hrow
    exact (List.mem_filter.mp hr).2

/-- Witness for C7 at a concrete input: with repeat count 2 and the first
pass complete, the table holding cyclic route 0 (electrodes 20, 21, 20)
and acyclic route 1 (electrodes 30, 31) is restarted with route 0 only. -/
theorem C7_repeat_cyclic_only_witness :
    on_step_routes_complete dfRep 750 1 0 5 0 2 RouteInfo.idle =
      StepOutcome.restart
        (execute_routes RouteInfo.idle dfRep 750 1 true false) 1 ∧
    runRouteSet (execute_routes RouteInfo.idle dfRep 750 1 true false).state =
      annotate dfRep
        (dfRep.filter (fun row => isCyclicRoute dfRep row.route_i)) ∧
    ∀ row ∈ runRouteSet
        (execute_routes RouteInfo.idle dfRep 750 1 true false).state,
      row.cyclic = true :=
  C7_repeat_cyclic_only dfRep 750 1 0 5 0 2 RouteInfo.idle (by decide)

/-- Claim C8 (confirmed).  If any route row maps one of its currently
active positions to a site, the aggregated emission reports that site as
on — the per-electrode aggregation sums the active flags, so one active
row outweighs any number of inactive rows of the same site. -/
theorem C8_on_precedence (df : List AnnRow) (t : Nat) (L : Int)
    (row : AnnRow) (hmem : row ∈ df)
    (hact : activeTransition t L row = true) :
    (row.electrode_i, true) ∈ electrodeStates df t L ∧
    (row.electrode_i, false) ∉ electrodeStates df t L := by
  have hsum : 0 < activeElectrodeSum df t L row.electrode_i := by
    refine List.countP_pos_iff.mpr ⟨row, ?_, hact⟩
    exact List.mem_filter.mpr ⟨hmem, by simp⟩
  have hdedup :
      row.electrode_i ∈ (df.map (fun r => r.electrode_i)).dedup :=
    List.mem_dedup.mpr (List.mem_map_of_mem _ hmem)
  constructor
  · exact List.mem_map.mpr ⟨row.electrode_i, hdedup, by simp [hsum]⟩
  · intro hcon
    obtain ⟨e, _, heq⟩ := List.mem_map.mp hcon
    obtain ⟨he, hfalse⟩ := Prod.mk.injEq .. ▸ heq
    rw [he] at hfalse
    simp [hsum] at hfalse

/-- Witness for C8 at a concrete input: in `dfShare` both routes pass
through electrode 41; at tick 0 with trail length 1 route 1 holds it
active while route 0's row for it is inactive, and the emission reports it
on. -/
theorem C8_on_precedence_witness :
    ((1 : Nat), (41 : Nat), (0 : Nat), (2 : Nat), false).1 = 1 ∧
    (((41 : Nat), true) ∈
        electrodeStates (annotate dfShare dfShare) 0 1 ∧
      ((41 : Nat), false) ∉
        electrodeStates (annotate dfShare dfShare) 0 1) :=
  ⟨rfl,
    C8_on_precedence (annotate dfShare dfShare) 0 1 ⟨1, 41, 0, 2, false⟩
      (by decide) (by decide)⟩

/-- Claim C9 (confirmed).  `reset` is valid from any state and idempotent:
one call clears the run state (and with it the pending-timer handle),
reports whether a timer was cancelled, and forces every electrode touched
by the run off; a second call finds the idle state, cancels nothing, emits
nothing and leaves the same final state, and calling it when already idle
is a no-op. -/
theorem C9_reset_idempotent (s : RouteInfo) :
    (reset s).state = RouteInfo.idle ∧
    reset (reset s).state =
      { state := RouteInfo.idle, cancelledTimer := false, emission := none } ∧
    reset RouteInfo.idle =
      { state := RouteInfo.idle, cancelledTimer := false, emission := none } ∧
    ∀ rd, s.run = some rd →
      (reset s).cancelledTimer = rd.timeout_id.isSome ∧
      (rd.electrode_ids ≠ [] →
        (reset s).emission =
          some (rd.electrode_ids.map (fun e => (e, false)))) := by
  obtain ⟨c, run⟩ := s
  cases run with
  | none =>
    refine ⟨rfl, rfl, rfl, ?_⟩
    intro rd h
    simp at h
  | some rd0 =>
    refine ⟨rfl, rfl, rfl, ?_⟩
    intro rd h
    obtain rfl : rd0 = rd := by simpa using h
    refine ⟨rfl, ?_⟩
    intro hne
    have hpos : 0 < rd0.electrode_ids.length := List.length_pos.mpr hne
    simp [reset, hpos]

/-- Witness for C9 at a concrete input: resetting the mid-run state `sRun`
(pending timer, electrodes 10, 11, 12) cancels the timer, turns all three
electrodes off and yields the idle state; resetting again changes
nothing and emits nothing. -/
theorem C9_reset_idempotent_witness :
    (reset sRun).state = RouteInfo.idle ∧
    reset (reset sRun).state =
      { state := RouteInfo.idle, cancelledTimer := false, emission := none } ∧
    (reset sRun).cancelledTimer = true ∧
    (reset sRun).emission = some [(10, false), (11, false), (12, false)] := by
  obtain ⟨h1, h2, _, h4⟩ := C9_reset_idempotent sRun
  obtain ⟨ht, he⟩ := h4 _ rfl
  refine ⟨h1, h2, ?_, ?_⟩
  · rw [ht]
    rfl
  · rw [he (by decide)]
    rfl

/-- Claim C10 (confirmed).  A stale timer callback after cancellation is
harmless: when the run state holds no route lengths,
`check_routes_progress` returns immediately — state unchanged, no
transition executed, nothing emitted, no timer scheduled and no completion
callback. -/
theorem C10_stale_timer_noop (s : RouteInfo) (h : s.run = none) :
    check_routes_progress s =
      { state := s, emission := none, timerScheduled := false,
        onCompleteCalled := false, resetEmission := none } := by
  obtain ⟨c, run⟩ := s
  cases run with
  | none => rfl
  | some rd => simp at h

/-- Witness for C10 at a concrete input: a tick fired against the idle
state (the state left behind by `reset`) does nothing. -/
theorem C10_stale_timer_noop_witness :
    check_routes_progress RouteInfo.idle =
      { state := RouteInfo.idle, emission := none, timerScheduled := false,
        onCompleteCalled := false, resetEmission := none } :=
  C10_stale_timer_noop RouteInfo.idle rfl
